import Mathlib

/-!
# Verification of the spawned-asset lifecycle registry (`spawnBuggyUI.ts`)

Shallow embedding of the `SpawnUI` component's registry state and despawn
handlers.  Entities (Horizon `Entity` handles) are identified by their
numeric id (`Nat`, standing for the `bigint` id); tags and group ids are
`String`s; the three registry maps of the component
(`spawnedEntities : Map<number, Entity[]>`,
`groupEntities : Map<string, Entity[]>`,
`entityToGroup : Map<bigint, string>`) are association lists.  The
asynchronous removal primitive `world.deleteAsset` is modelled by a
failure oracle `f : Nat → Bool` (`f e = true` means the removal call for
entity `e` throws).  Player-tracked lists hold `Option Nat` so that a
null/undefined entry (which the player-scoped handler defensively skips)
is representable.
-/

/-- Association-list lookup: first pair whose key matches (JS `Map.get`). -/
def alLookup {κ α : Type} [DecidableEq κ] : List (κ × α) → κ → Option α
  | [], _ => none
  | (k', v) :: rest, k => if k' = k then some v else alLookup rest k

/-- Association-list erase: drop every pair with the given key (JS `Map.delete`). -/
def alErase {κ α : Type} [DecidableEq κ] : List (κ × α) → κ → List (κ × α)
  | [], _ => []
  | (k', v) :: rest, k => if k' = k then alErase rest k else (k', v) :: alErase rest k

/-- Association-list insert/overwrite (JS `Map.set`). -/
def alInsert {κ α : Type} [DecidableEq κ] (m : List (κ × α)) (k : κ) (v : α) : List (κ × α) :=
  (k, v) :: alErase m k

/-- The registry state of the `SpawnUI` component: its three private maps. -/
structure SpawnState where
  /-- `spawnedEntities : Map<number, Entity[]>` — per-player tracked entities. -/
  spawnedEntities : List (Nat × List (Option Nat))
  /-- `groupEntities : Map<string, Entity[]>` — spawn groups by group id. -/
  groupEntities : List (String × List Nat)
  /-- `entityToGroup : Map<bigint, string>` — reverse index entity id → group id. -/
  entityToGroup : List (Nat × String)
deriving DecidableEq

/-- The empty registry, as at component construction. -/
def emptyState : SpawnState := ⟨[], [], []⟩

/-- Payload of `despawnResultEvent`. -/
structure PlayerResult where
  playerId : Nat
  count : Nat
  failedCount : Nat
deriving DecidableEq

/-- Payload of `despawnByKeyResultEvent`. -/
structure KeyResult where
  key : String
  count : Nat
  failedCount : Nat
deriving DecidableEq

/-! ## JS string primitives used by the tag codec

JS strings are sequences of code units; `String.prototype.slice` and
`.length` are embedded through the underlying character list. -/

/-- JS `s.length`. -/
def jsLength (s : String) : Nat := s.data.length

/-- JS `s.slice(0, n)` (truncation to the first `n` characters). -/
def jsTake (s : String) (n : Nat) : String := String.mk (s.data.take n)

/-- JS `s.slice(n)` (drop the first `n` characters). -/
def jsDrop (s : String) (n : Nat) : String := String.mk (s.data.drop n)

/-- JS `s.startsWith(p)`. -/
def jsStartsWith (s p : String) : Bool := decide (s.data.take p.data.length = p.data)

/-! ## Tag codec (`tagSpawnGroup` / `groupIdFromEntityTags`) -/

/-- The constant marker tag `buggyTag = 'buggy'`. -/
def buggyTag : String := "buggy"

/-- The group tag written by `tagSpawnGroup`:
`gid:<gid>`, truncated to 20 characters when longer
(`gidTag.length > 20 ? gidTag.slice(0, 20) : gidTag`). -/
def safeGidTag (gid : String) : String :=
  let gidTag := "gid:" ++ gid
  if jsLength gidTag > 20 then jsTake gidTag 20 else gidTag

/-- The tag set of a freshly spawned (previously untagged) entity after
`tagSpawnGroup` runs on it: the marker tag plus the safe group tag. -/
def tagsAfterTagging (gid : String) : List String := [buggyTag, safeGidTag gid]

/-- `groupIdFromEntityTags`: scan the tag list for the first tag starting
with `gid:` and return the rest of it (`t.slice(4)`); `none` if absent. -/
def groupIdFromEntityTags : List String → Option String
  | [] => none
  | t :: rest =>
    if jsStartsWith t "gid:" then some (jsDrop t 4) else groupIdFromEntityTags rest

/-! ## Spawn registration (`handleSpawnRequest`, lines 332–344)

After a successful `spawnAsset` call the handler generates a group id,
tags the entities, stores the group, fills the reverse index, and appends
the entities to the requesting player's tracked list (creating it when
absent). -/

/-- Registry mutation performed by a successful spawn:
`groupEntities.set(gid, entities)`; `entityToGroup.set(e.id, gid)` for
each member; push the members onto the player's tracked list. -/
def spawnRegister (st : SpawnState) (gid : String) (pid : Nat) (es : List Nat) : SpawnState :=
  { groupEntities := alInsert st.groupEntities gid es,
    entityToGroup := es.foldl (fun m e => alInsert m e gid) st.entityToGroup,
    spawnedEntities :=
      alInsert st.spawnedEntities pid
        (((alLookup st.spawnedEntities pid).getD []) ++ es.map some) }

/-! ## Player-scoped despawn (`requestDespawnEvent` handler, lines 140–189) -/

/-- The synchronous take: `getPlayerSpawnedEntities` then
`clearPlayerEntities`, both before the first `await`. -/
def takePlayerEntities (st : SpawnState) (pid : Nat) : SpawnState × List (Option Nat) :=
  let entities := (alLookup st.spawnedEntities pid).getD []
  ({ st with spawnedEntities := alErase st.spawnedEntities pid }, entities)

/-- The per-entity loop of the player-scoped handler: skip null entries;
otherwise `await deleteAsset`, counting successes and collecting failures
in order.  Returns `(despawnCount, failedEntities)`. -/
def processEntities : List (Option Nat) → (Nat → Bool) → Nat × List Nat
  | [], _ => (0, [])
  | none :: rest, f => processEntities rest f
  | some e :: rest, f =>
    let r := processEntities rest f
    if f e then (r.1, e :: r.2) else (r.1 + 1, r.2)

/-- The `deleteAsset` calls issued for a taken list: every non-null entry. -/
def removalCalls (taken : List (Option Nat)) : List Nat := taken.filterMap id

/-- Restore step: `if (failedEntities.length > 0) spawnedEntities.set(pid, failedEntities)`. -/
def restoreFailed (st : SpawnState) (pid : Nat) (failed : List Nat) : SpawnState :=
  if failed.isEmpty then st
  else { st with spawnedEntities := alInsert st.spawnedEntities pid (failed.map some) }

/-- The whole player-scoped despawn handler: take, removal loop, restore
of failures, and the emitted `despawnResultEvent` payload. -/
def playerDespawn (st : SpawnState) (pid : Nat) (f : Nat → Bool) :
    SpawnState × PlayerResult :=
  let t := takePlayerEntities st pid
  let r := processEntities t.2 f
  (restoreFailed t.1 pid r.2, ⟨pid, r.1, r.2.length⟩)

/-! ## Group-scoped despawn (`requestDespawnGroupEvent` handler, lines 192–223) -/

/-- The entities a group-scoped request finds: `groupEntities.get(groupId) ?? []`. -/
def groupTaken (st : SpawnState) (g : String) : List Nat :=
  (alLookup st.groupEntities g).getD []

/-- The removal loop of the group handler: `deleteAsset` each member,
counting successes and collecting failures in order. -/
def runGroupRemovals : List Nat → (Nat → Bool) → Nat × List Nat
  | [], _ => (0, [])
  | e :: rest, f =>
    let r := runGroupRemovals rest f
    if f e then (r.1, e :: r.2) else (r.1 + 1, r.2)

/-- `entities.includes(e)` over a possibly-null tracked entry. -/
def memberIncluded (members : List Nat) : Option Nat → Bool
  | none => false
  | some e => decide (e ∈ members)

/-- Prune step of the group handler: for every player, keep only tracked
entries not among the taken group members
(`list.filter(e => !entities.includes(e))`). -/
def pruneHandles (m : List (Nat × List (Option Nat))) (members : List Nat) :
    List (Nat × List (Option Nat)) :=
  m.map (fun p => (p.1, p.2.filter (fun oe => !memberIncluded members oe)))

/-- The whole group-scoped despawn handler: read the group, delete it and
its reverse-index entries first, run the removal loop, prune player
lists, and emit the `despawnByKeyResultEvent` payload. -/
def groupDespawn (st : SpawnState) (g : String) (f : Nat → Bool) :
    SpawnState × KeyResult :=
  let entities := groupTaken st g
  let r := runGroupRemovals entities f
  ({ spawnedEntities := pruneHandles st.spawnedEntities entities,
     groupEntities := alErase st.groupEntities g,
     entityToGroup := st.entityToGroup.filter (fun p => !decide (p.1 ∈ entities)) },
   ⟨"group:" ++ g, r.1, r.2.length⟩)

/-! ## Entity-scoped despawn (`requestDespawnByEntityEvent` handler, lines 226–258) -/

/-- JS truthiness of a string-or-null value (`x || null`, `if (x)`):
the empty string is falsy. -/
def jsTruthy : Option String → Option String
  | some g => if g = "" then none else some g
  | none => none

/-- Group resolution of the entity handler: reverse index first
(`entityToGroup.get(entityId) || null`), then the tag fallback
(`groupIdFromEntityTags`), each filtered through JS truthiness as the
code's `if (!gid)` / `if (gid)` checks do.  `tags` is the tag set of the
entity with id `eid` (empty when the entity no longer exists). -/
def resolveGid (st : SpawnState) (eid : Nat) (tags : List String) : Option String :=
  let gid0 := jsTruthy (alLookup st.entityToGroup eid)
  let gid1 := match gid0 with
    | some g => some g
    | none => groupIdFromEntityTags tags
  jsTruthy gid1

/-- The whole entity-scoped despawn handler: resolve a group and delegate
to the group handler; otherwise delete the single entity directly,
pruning it from player lists on success only (the `catch` branch skips
the prune), and emit the `despawnByKeyResultEvent` payload. -/
def entityDespawn (st : SpawnState) (eid : Nat) (tags : List String) (f : Nat → Bool) :
    SpawnState × KeyResult :=
  match resolveGid st eid tags with
  | some g => groupDespawn st g f
  | none =>
    if f eid then (st, ⟨"entity:" ++ toString eid, 0, 1⟩)
    else
      ({ st with spawnedEntities :=
          st.spawnedEntities.map (fun p => (p.1, p.2.filter (fun oe => !decide (oe = some eid)))) },
       ⟨"entity:" ++ toString eid, 1, 0⟩)

/-! ## Event-dispatch model of `start()`

In `start()` (lines 132–260) only the `requestDespawnEvent` listener is
connected at top level; the two `connectNetworkBroadcastEvent` calls for
`requestDespawnGroupEvent` and `requestDespawnByEntityEvent` are textually
inside the body of the `requestDespawnEvent` callback (the `});` on line
259 closes that callback).  Consequently they execute — registering those
listeners — once per processed player-scoped request, not at start-up.
The system state records how many listeners of each kind are registered;
dispatching an inbound event runs every registered listener for it. -/

/-- Listener-registration state plus the registry. -/
structure Sys where
  regGroup : Nat
  regEntity : Nat
  st : SpawnState
deriving DecidableEq

/-- State right after `start()`: the player listener is connected, the
group and entity listeners are not. -/
def startSys (st0 : SpawnState) : Sys := ⟨0, 0, st0⟩

/-- Dispatch of a `requestDespawnEvent`: the (single) player listener
runs; its body additionally connects one more group listener and one more
entity listener.  Returns the emitted `despawnResultEvent` payloads. -/
def sysPlayerRequest (s : Sys) (pid : Nat) (f : Nat → Bool) : Sys × List PlayerResult :=
  let r := playerDespawn s.st pid f
  (⟨s.regGroup + 1, s.regEntity + 1, r.1⟩, [r.2])

/-- Run `n` registered copies of the group listener in sequence on one
inbound `requestDespawnGroupEvent`, collecting every emitted result. -/
def runGroupListeners : Nat → SpawnState → String → (Nat → Bool) → SpawnState × List KeyResult
  | 0, st, _, _ => (st, [])
  | n + 1, st, g, f =>
    let r := groupDespawn st g f
    let rest := runGroupListeners n r.1 g f
    (rest.1, r.2 :: rest.2)

/-- Dispatch of a `requestDespawnGroupEvent` to every registered group
listener. -/
def sysGroupRequest (s : Sys) (g : String) (f : Nat → Bool) : Sys × List KeyResult :=
  let r := runGroupListeners s.regGroup s.st g f
  (⟨s.regGroup, s.regEntity, r.1⟩, r.2)

/-! ## Reachable registry states

Registry states reachable from the empty registry by spawn and despawn
operations.  A spawn step carries the contract of the external creation
primitive (`world.spawnAsset`): the handles it returns are newly created
world objects, so their ids are distinct from every id the registry has
seen in a live group. -/

/-- `e` is a member of some live group of `st`. -/
def inSomeGroup (st : SpawnState) (e : Nat) : Prop :=
  ∃ g l, alLookup st.groupEntities g = some l ∧ e ∈ l

/-- Reachability by spawn / player-despawn / group-despawn /
entity-despawn operations from the empty registry. -/
inductive Reach : SpawnState → Prop
  | init : Reach emptyState
  | spawn (st : SpawnState) (gid : String) (pid : Nat) (es : List Nat)
      (hR : Reach st) (hfresh : ∀ e ∈ es, ¬ inSomeGroup st e) :
      Reach (spawnRegister st gid pid es)
  | player (st : SpawnState) (pid : Nat) (f : Nat → Bool) (hR : Reach st) :
      Reach (playerDespawn st pid f).1
  | group (st : SpawnState) (g : String) (f : Nat → Bool) (hR : Reach st) :
      Reach (groupDespawn st g f).1
  | entity (st : SpawnState) (eid : Nat) (tags : List String) (f : Nat → Bool)
      (hR : Reach st) :
      Reach (entityDespawn st eid tags f).1

/-- Member sets of distinct live groups never intersect. -/
def GroupsDisjoint (st : SpawnState) : Prop :=
  ∀ g1 l1 g2 l2, g1 ≠ g2 →
    alLookup st.groupEntities g1 = some l1 →
    alLookup st.groupEntities g2 = some l2 →
    ∀ e, e ∈ l1 → e ∉ l2

/-! ## Association-list lemmas -/

theorem alLookup_erase_self {κ α : Type} [DecidableEq κ] (m : List (κ × α)) (k : κ) :
    alLookup (alErase m k) k = none := by
  induction m with
  | nil => rfl
  | cons p rest ih =>
    obtain ⟨pk, pv⟩ := p
    by_cases h : pk = k
    · simpa [alErase, h] using ih
    · simpa [alErase, h, alLookup] using ih

theorem alLookup_erase_ne {κ α : Type} [DecidableEq κ] (m : List (κ × α)) (k k' : κ)
    (h : k' ≠ k) : alLookup (alErase m k) k' = alLookup m k' := by
  induction m with
  | nil => rfl
  | cons p rest ih =>
    obtain ⟨pk, pv⟩ := p
    by_cases hp : pk = k
    · subst hp
      have hpk' : ¬ pk = k' := fun hk => h hk.symm
      simp [alErase, alLookup, hpk']
      exact ih
    · by_cases hp' : pk = k'
      · subst hp'
        simp [alErase, hp, alLookup]
      · simp [alErase, hp, alLookup, hp']
        exact ih

theorem alLookup_insert_self {κ α : Type} [DecidableEq κ] (m : List (κ × α)) (k : κ) (v : α) :
    alLookup (alInsert m k v) k = some v := by
  simp [alInsert, alLookup]

theorem alLookup_insert_ne {κ α : Type} [DecidableEq κ] (m : List (κ × α)) (k k' : κ) (v : α)
    (h : k' ≠ k) : alLookup (alInsert m k v) k' = alLookup m k' := by
  have hk : k ≠ k' := fun hk => h hk.symm
  simp [alInsert, alLookup, hk]
  exact alLookup_erase_ne m k k' h

theorem alErase_of_lookup_none {κ α : Type} [DecidableEq κ] (m : List (κ × α)) (k : κ)
    (h : alLookup m k = none) : alErase m k = m := by
  induction m with
  | nil => rfl
  | cons p rest ih =>
    obtain ⟨pk, pv⟩ := p
    by_cases hp : pk = k
    · simp [alLookup, hp] at h
    · simp [alLookup, hp] at h
      simp [alErase, hp]
      exact ih h

/-! ## Handler-level supporting lemmas -/

theorem takePlayerEntities_second_empty (st : SpawnState) (pid : Nat) :
    (takePlayerEntities (takePlayerEntities st pid).1 pid).2 = [] := by
  simp [takePlayerEntities, alLookup_erase_self]

theorem processEntities_nil (f : Nat → Bool) : processEntities [] f = (0, []) := rfl

theorem processEntities_count (l : List (Option Nat)) (f : Nat → Bool) :
    (processEntities l f).1 + (processEntities l f).2.length = (removalCalls l).length := by
  induction l with
  | nil => rfl
  | cons oe rest ih =>
    cases oe with
    | none => simpa [processEntities, removalCalls] using ih
    | some e =>
      by_cases hf : f e
      · simp [processEntities, removalCalls, hf] at *
        omega
      · simp [processEntities, removalCalls, hf] at *
        omega

theorem runGroupRemovals_failed (t : List Nat) (f : Nat → Bool) :
    (runGroupRemovals t f).2 = t.filter f := by
  induction t with
  | nil => rfl
  | cons e rest ih =>
    by_cases hf : f e
    · simp [runGroupRemovals, List.filter, hf, ih]
    · simp [runGroupRemovals, List.filter, hf, ih]

theorem runGroupRemovals_count (t : List Nat) (f : Nat → Bool) :
    (runGroupRemovals t f).1 + (runGroupRemovals t f).2.length = t.length := by
  induction t with
  | nil => rfl
  | cons e rest ih =>
    by_cases hf : f e
    · simp [runGroupRemovals, hf] at *
      omega
    · simp [runGroupRemovals, hf] at *
      omega

theorem runGroupRemovals_all_success (t : List Nat) (f : Nat → Bool)
    (h : ∀ e ∈ t, f e = false) : runGroupRemovals t f = (t.length, []) := by
  induction t with
  | nil => rfl
  | cons e rest ih =>
    have he : f e = false := h e (List.mem_cons_self e rest)
    have ih' := ih (fun x hx => h x (List.mem_cons_of_mem e hx))
    simp [runGroupRemovals, he, ih']

theorem groupTaken_after_despawn (st : SpawnState) (g : String) (f : Nat → Bool) :
    groupTaken (groupDespawn st g f).1 g = [] := by
  simp [groupTaken, groupDespawn, alLookup_erase_self]

theorem memberIncluded_nil (oe : Option Nat) : memberIncluded [] oe = false := by
  cases oe <;> simp [memberIncluded]

theorem pruneHandles_nil (m : List (Nat × List (Option Nat))) : pruneHandles m [] = m := by
  simp [pruneHandles, memberIncluded_nil]

/-! ## C1 — race safety of the player-scoped handler -/

/-- C1: the player-scoped handler takes (reads and clears) the player's
tracked list synchronously before its first removal `await`; a second
player-scoped request for the same player processed after the first
request's take therefore finds an empty list, emits
`{playerId, count: 0, failedCount: 0}`, and issues no `deleteAsset` call,
so no handle is submitted to removal twice. -/
theorem player_despawn_race_safe (st : SpawnState) (pid : Nat) (f' : Nat → Bool) :
    (takePlayerEntities (takePlayerEntities st pid).1 pid).2 = [] ∧
    (playerDespawn (takePlayerEntities st pid).1 pid f').2 =
      ⟨pid, 0, 0⟩ ∧
    removalCalls (takePlayerEntities (takePlayerEntities st pid).1 pid).2 = [] ∧
    (∀ e, e ∈ removalCalls (takePlayerEntities st pid).2 →
       e ∉ removalCalls (takePlayerEntities (takePlayerEntities st pid).1 pid).2) := by
  have h2 := takePlayerEntities_second_empty st pid
  refine ⟨h2, ?_, ?_, ?_⟩
  · simp [playerDespawn, takePlayerEntities, alLookup_erase_self, processEntities,
      restoreFailed, removalCalls]
  · rw [h2]; rfl
  · intro e _ he
    rw [h2] at he
    simp [removalCalls] at he

/-! ## C9 — null entries are skipped and counted in neither tally -/

/-- C9: in the player-scoped handler a null/undefined tracked entry is
skipped, so the emitted result always satisfies
`count + failedCount = number of non-null entries` of the taken list,
and the number of non-null entries can be strictly smaller than the
number of tracked entries. -/
theorem player_despawn_null_entries_skipped :
    (∀ (st : SpawnState) (pid : Nat) (f : Nat → Bool),
       (playerDespawn st pid f).2.count + (playerDespawn st pid f).2.failedCount
         = (removalCalls ((alLookup st.spawnedEntities pid).getD [])).length) ∧
    (∃ taken : List (Option Nat), (removalCalls taken).length < taken.length) := by
  constructor
  · intro st pid f
    simpa [playerDespawn, takePlayerEntities] using
      processEntities_count ((alLookup st.spawnedEntities pid).getD []) f
  · exact ⟨[none], by simp [removalCalls]⟩

/-! ## C2 — idempotence of the group-scoped handler -/

/-- C2: a second group-scoped despawn for the same groupId — or one for a
groupId that was never registered — finds no tracked entities, emits
`{successCount: 0, failedCount: 0}`, and leaves the registry untouched. -/
theorem group_despawn_idempotent (st : SpawnState) (g : String) (f f' : Nat → Bool) :
    (groupDespawn (groupDespawn st g f).1 g f').2 = ⟨"group:" ++ g, 0, 0⟩ ∧
    groupTaken (groupDespawn st g f).1 g = [] ∧
    (alLookup st.groupEntities g = none →
       (groupDespawn st g f).2 = ⟨"group:" ++ g, 0, 0⟩ ∧
       (groupDespawn st g f).1 = st) := by
  have hzero : ∀ (st' : SpawnState) (f'' : Nat → Bool),
      alLookup st'.groupEntities g = none →
      (groupDespawn st' g f'').2 = ⟨"group:" ++ g, 0, 0⟩ ∧ (groupDespawn st' g f'').1 = st' := by
    intro st' f'' h
    have htaken : groupTaken st' g = [] := by simp [groupTaken, h]
    constructor
    · simp [groupDespawn, htaken, runGroupRemovals]
    · have h1 : alErase st'.groupEntities g = st'.groupEntities :=
        alErase_of_lookup_none _ _ h
      simp [groupDespawn, htaken, pruneHandles_nil, h1]
  have hafter : alLookup (groupDespawn st g f).1.groupEntities g = none := by
    simp [groupDespawn, alLookup_erase_self]
  refine ⟨(hzero _ f' hafter).1, groupTaken_after_despawn st g f, fun h => hzero st f h⟩

/-! ## C3 — entity-scoped despawn delegates to the group handler -/

theorem alLookup_filter_not_mem (m : List (Nat × String)) (ents : List Nat) (e : Nat)
    (he : e ∈ ents) :
    alLookup (m.filter (fun p => !decide (p.1 ∈ ents))) e = none := by
  induction m with
  | nil => rfl
  | cons p rest ih =>
    obtain ⟨pk, pv⟩ := p
    by_cases hp : pk ∈ ents
    · simp [List.filter_cons, hp]
      exact ih
    · have hpe : ¬ pk = e := fun h => hp (h ▸ he)
      simp [List.filter_cons, hp, alLookup, hpe]
      exact ih

/-- Example state: a 3-member spawn group owned by player 7, with its
reverse-index entries. -/
def delegationDemoState : SpawnState :=
  ⟨[(7, [some 1, some 2, some 3])], [("g", [1, 2, 3])], [(1, "g"), (2, "g"), (3, "g")]⟩

/-- C3: when the entity handler resolves a group for the entity (via the
reverse index or the `gid:` tag fallback), it delegates entirely to the
group handler: the outcome is exactly the group despawn, the emitted
result's successCount is the group size (all removals succeeding), the
result key is `group:<gid>` (not `entity:<id>` — the single entity is not
additionally deleted on its own), and the group is gone afterwards. -/
theorem entity_despawn_delegates_to_group (st : SpawnState) (eid : Nat)
    (tags : List String) (f : Nat → Bool) (g : String)
    (hg : resolveGid st eid tags = some g)
    (hf : ∀ e ∈ groupTaken st g, f e = false) :
    entityDespawn st eid tags f = groupDespawn st g f ∧
    (entityDespawn st eid tags f).2 =
      ⟨"group:" ++ g, (groupTaken st g).length, 0⟩ ∧
    alLookup (entityDespawn st eid tags f).1.groupEntities g = none := by
  have hrun := runGroupRemovals_all_success (groupTaken st g) f hf
  have hdel : entityDespawn st eid tags f = groupDespawn st g f := by
    simp [entityDespawn, hg]
  refine ⟨hdel, ?_, ?_⟩
  · rw [hdel]
    simp [groupDespawn, hrun]
  · rw [hdel]
    simp [groupDespawn, alLookup_erase_self]

/-- C3 witness: entity-scoped despawn of member 2 of the registered
3-member group `g` behaves as the group despawn and reports
successCount 3. -/
theorem entity_despawn_delegates_to_group_witness :
    entityDespawn delegationDemoState 2 [] (fun _ => false)
        = groupDespawn delegationDemoState "g" (fun _ => false) ∧
    (entityDespawn delegationDemoState 2 [] (fun _ => false)).2 =
      ⟨"group:" ++ "g", (groupTaken delegationDemoState "g").length, 0⟩ ∧
    alLookup (entityDespawn delegationDemoState 2 [] (fun _ => false)).1.groupEntities "g"
        = none :=
  entity_despawn_delegates_to_group delegationDemoState 2 [] (fun _ => false) "g"
    (by decide) (by decide)

/-! ## C6 — partial-failure accounting on the group path -/

/-- C6: despawning a registered group of 4 handles of which exactly one
removal call fails emits `{successCount: 3, failedCount: 1}`, and the
registry no longer treats the group as live: a subsequent take of the
groupId finds nothing and the reverse index has no entries for any of its
members. -/
theorem group_partial_failure_accounting (st : SpawnState) (g : String) (f : Nat → Bool)
    (h4 : (groupTaken st g).length = 4)
    (h1 : ((groupTaken st g).filter f).length = 1) :
    (groupDespawn st g f).2 = ⟨"group:" ++ g, 3, 1⟩ ∧
    groupTaken (groupDespawn st g f).1 g = [] ∧
    (∀ e ∈ groupTaken st g, alLookup (groupDespawn st g f).1.entityToGroup e = none) := by
  have hfl : (runGroupRemovals (groupTaken st g) f).2.length = 1 := by
    rw [runGroupRemovals_failed]
    exact h1
  have hc := runGroupRemovals_count (groupTaken st g) f
  have hsucc : (runGroupRemovals (groupTaken st g) f).1 = 3 := by omega
  refine ⟨?_, groupTaken_after_despawn st g f, ?_⟩
  · simp [groupDespawn, hsucc, hfl]
  · intro e he
    simpa [groupDespawn] using alLookup_filter_not_mem st.entityToGroup (groupTaken st g) e he

/-- C6 witness: the group `g = [1,2,3,4]` where only the removal of
handle 2 fails yields successCount 3, failedCount 1, an empty subsequent
take, and an emptied reverse index. -/
theorem group_partial_failure_accounting_witness :
    (groupDespawn ⟨[], [("g", [1, 2, 3, 4])], [(1, "g"), (2, "g"), (3, "g"), (4, "g")]⟩
        "g" (fun e => decide (e = 2))).2 = ⟨"group:" ++ "g", 3, 1⟩ ∧
    groupTaken (groupDespawn ⟨[], [("g", [1, 2, 3, 4])], [(1, "g"), (2, "g"), (3, "g"), (4, "g")]⟩
        "g" (fun e => decide (e = 2))).1 "g" = [] ∧
    (∀ e ∈ groupTaken ⟨[], [("g", [1, 2, 3, 4])], [(1, "g"), (2, "g"), (3, "g"), (4, "g")]⟩ "g",
       alLookup (groupDespawn ⟨[], [("g", [1, 2, 3, 4])], [(1, "g"), (2, "g"), (3, "g"), (4, "g")]⟩
          "g" (fun e => decide (e = 2))).1.entityToGroup e = none) :=
  group_partial_failure_accounting
    ⟨[], [("g", [1, 2, 3, 4])], [(1, "g"), (2, "g"), (3, "g"), (4, "g")]⟩
    "g" (fun e => decide (e = 2)) (by decide) (by decide)

/-! ## C5 — retention of failed handles, per path -/

theorem pruneHandles_not_mem (m : List (Nat × List (Option Nat))) (ents : List Nat)
    (pid' : Nat) (l : List (Option Nat))
    (h : alLookup (pruneHandles m ents) pid' = some l) (e : Nat) (he : e ∈ ents) :
    some e ∉ l := by
  induction m with
  | nil => simp [pruneHandles, alLookup] at h
  | cons p rest ih =>
    obtain ⟨pk, lst⟩ := p
    by_cases hp : pk = pid'
    · simp [pruneHandles, alLookup, hp] at h
      intro hmem
      rw [← h] at hmem
      have := (List.mem_filter.mp hmem).2
      simp [memberIncluded, he] at this
    · simp [pruneHandles, alLookup, hp] at h
      exact ih (by simpa [pruneHandles] using h)

/-- C5 counterexample: on the group-scoped path a handle whose removal
call fails is NOT re-inserted into the registry.  Concretely, for the
registered group `g = [1]` owned by player 7, where the removal of
handle 1 fails, the handler reports `failedCount = 1` yet leaves the
registry with no trace of handle 1 anywhere — the group map and reverse
index are empty and player 7's list was pruned to `[]` — so a future
group-scoped request for `g` finds nothing to retry and reports 0/0. -/
theorem group_path_drops_failed_handle :
    (groupDespawn ⟨[(7, [some 1])], [("g", [1])], [(1, "g")]⟩ "g" (fun _ => true)).2.failedCount
        = 1 ∧
    (groupDespawn ⟨[(7, [some 1])], [("g", [1])], [(1, "g")]⟩ "g" (fun _ => true)).1
        = ⟨[(7, [])], [], []⟩ ∧
    (groupDespawn
        (groupDespawn ⟨[(7, [some 1])], [("g", [1])], [(1, "g")]⟩ "g" (fun _ => true)).1
        "g" (fun _ => true)).2 = ⟨"group:" ++ "g", 0, 0⟩ := by
  decide

/-- C5 amended: failed removals are re-inserted for retry only on the
player-scoped path (the failed list is written back under the player's
id).  On the group-scoped path a failed handle is dropped from tracking
entirely: the group entry and the members' reverse-index entries are
gone, and every group member — failed or not — is pruned from every
player's tracked list.  On the entity-scoped direct-delete path a failed
deletion leaves the registry unchanged (the handle stays wherever it was
tracked). -/
theorem failed_handle_retention_by_path (st : SpawnState) (pid : Nat) (g : String)
    (eid : Nat) (tags : List String) (f : Nat → Bool) :
    ((processEntities ((alLookup st.spawnedEntities pid).getD []) f).2 ≠ [] →
       alLookup (playerDespawn st pid f).1.spawnedEntities pid
         = some ((processEntities ((alLookup st.spawnedEntities pid).getD []) f).2.map some)) ∧
    (∀ e ∈ groupTaken st g,
       alLookup (groupDespawn st g f).1.groupEntities g = none ∧
       alLookup (groupDespawn st g f).1.entityToGroup e = none ∧
       (∀ pid' l, alLookup (groupDespawn st g f).1.spawnedEntities pid' = some l →
          some e ∉ l)) ∧
    (resolveGid st eid tags = none → f eid = true →
       (entityDespawn st eid tags f).1 = st) := by
  refine ⟨?_, ?_, ?_⟩
  · intro hne
    cases hfe : (processEntities ((alLookup st.spawnedEntities pid).getD []) f).2 with
    | nil => exact absurd hfe hne
    | cons a l =>
      simp only [playerDespawn, takePlayerEntities, restoreFailed, hfe, List.isEmpty_cons,
        if_false]
      rw [← hfe]
      exact alLookup_insert_self _ _ _
  · intro e he
    refine ⟨?_, ?_, ?_⟩
    · simp [groupDespawn, alLookup_erase_self]
    · simpa [groupDespawn] using alLookup_filter_not_mem st.entityToGroup (groupTaken st g) e he
    · intro pid' l hl
      exact pruneHandles_not_mem st.spawnedEntities (groupTaken st g) pid' l
        (by simpa [groupDespawn] using hl) e he
  · intro hnone hfid
    simp [entityDespawn, hnone, hfid]

/-- C5 amended witness: player 7's failed handle 1 is restored on the
player path; group member 1 is fully dropped on the group path; the
entity path leaves the failed state untouched. -/
theorem failed_handle_retention_by_path_witness :
    alLookup (playerDespawn ⟨[(7, [some 1])], [], []⟩ 7 (fun _ => true)).1.spawnedEntities 7
      = some ((processEntities
          ((alLookup (SpawnState.spawnedEntities ⟨[(7, [some 1])], [], []⟩) 7).getD [])
          (fun _ => true)).2.map some) ∧
    (entityDespawn ⟨[(7, [some 1])], [], []⟩ 5 [] (fun _ => true)).1
      = ⟨[(7, [some 1])], [], []⟩ :=
  ⟨(failed_handle_retention_by_path ⟨[(7, [some 1])], [], []⟩ 7 "g" 5 [] (fun _ => true)).1
      (by decide),
   (failed_handle_retention_by_path ⟨[(7, [some 1])], [], []⟩ 7 "g" 5 [] (fun _ => true)).2.2
      (by decide) (by decide)⟩

/-! ## C4 — handler registration is not independent of request history -/

/-- A registry with one live group `g = [1, 2]` owned by player 7. -/
def c4DemoState : SpawnState :=
  ⟨[(7, [some 1, some 2])], [("g", [1, 2])], [(1, "g"), (2, "g")]⟩

/-- C4: refuted by the code as written.  `start()` connects only the
player-scoped listener; the group- and entity-scoped
`connectNetworkBroadcastEvent` calls sit inside the player-scoped
callback body, so right after `start()` a group-scoped request for the
live group `g` is processed by nobody: no result is emitted and nothing
is despawned.  Moreover each processed player-scoped request connects one
more copy of the group listener, so after two player requests a single
group request is processed twice (two results) — how the group handler
responds depends on the player-request history. -/
theorem despawn_handlers_not_registered_at_start :
    (sysGroupRequest (startSys c4DemoState) "g" (fun _ => false)).2 = [] ∧
    (sysGroupRequest (startSys c4DemoState) "g" (fun _ => false)).1.st = c4DemoState ∧
    alLookup c4DemoState.groupEntities "g" = some [1, 2] ∧
    (sysGroupRequest
        (sysPlayerRequest
          (sysPlayerRequest (startSys c4DemoState) 9 (fun _ => false)).1
          9 (fun _ => false)).1
        "g" (fun _ => false)).2.length = 2 := by
  decide

/-! ## C7 — disjointness of live groups in every reachable state -/

theorem disjoint_of_groupEntities_eq (st st' : SpawnState)
    (h : st'.groupEntities = st.groupEntities) (hd : GroupsDisjoint st) :
    GroupsDisjoint st' := by
  intro g1 l1 g2 l2 hne h1 h2
  rw [h] at h1 h2
  exact hd g1 l1 g2 l2 hne h1 h2

theorem playerDespawn_groupEntities (st : SpawnState) (pid : Nat) (f : Nat → Bool) :
    (playerDespawn st pid f).1.groupEntities = st.groupEntities := by
  simp only [playerDespawn, takePlayerEntities, restoreFailed]
  split <;> rfl

theorem groupDespawn_preserves_disjoint (st : SpawnState) (g : String) (f : Nat → Bool)
    (hd : GroupsDisjoint st) : GroupsDisjoint (groupDespawn st g f).1 := by
  intro g1 l1 g2 l2 hne h1 h2
  have hm : (groupDespawn st g f).1.groupEntities = alErase st.groupEntities g := rfl
  rw [hm] at h1 h2
  by_cases he1 : g1 = g
  · rw [he1, alLookup_erase_self] at h1
    exact absurd h1 (by simp)
  · by_cases he2 : g2 = g
    · rw [he2, alLookup_erase_self] at h2
      exact absurd h2 (by simp)
    · rw [alLookup_erase_ne st.groupEntities g g1 he1] at h1
      rw [alLookup_erase_ne st.groupEntities g g2 he2] at h2
      exact hd g1 l1 g2 l2 hne h1 h2

theorem entityDespawn_preserves_disjoint (st : SpawnState) (eid : Nat) (tags : List String)
    (f : Nat → Bool) (hd : GroupsDisjoint st) :
    GroupsDisjoint (entityDespawn st eid tags f).1 := by
  cases hr : resolveGid st eid tags with
  | some g =>
    have hdel : entityDespawn st eid tags f = groupDespawn st g f := by
      simp [entityDespawn, hr]
    rw [hdel]
    exact groupDespawn_preserves_disjoint st g f hd
  | none =>
    refine disjoint_of_groupEntities_eq st _ ?_ hd
    simp only [entityDespawn, hr]
    split <;> rfl

/-- C7: in every registry state reachable from the empty registry by
spawn and despawn operations (spawned handles being fresh world objects,
per the creation primitive's contract), the member lists of any two
distinct live groups are disjoint — each handle belongs to at most one
live group. -/
theorem reachable_groups_disjoint (st : SpawnState) (h : Reach st) : GroupsDisjoint st := by
  induction h with
  | init =>
    intro g1 l1 g2 l2 hne h1 h2
    simp [emptyState, alLookup] at h1
  | spawn st gid pid es hR hfresh ih =>
    intro g1 l1 g2 l2 hne h1 h2 e he1 he2
    have hge : (spawnRegister st gid pid es).groupEntities = alInsert st.groupEntities gid es :=
      rfl
    rw [hge] at h1 h2
    by_cases hg1 : g1 = gid
    · subst hg1
      have hg2 : g2 ≠ g1 := fun hx => hne hx.symm
      rw [alLookup_insert_self] at h1
      rw [alLookup_insert_ne st.groupEntities g1 g2 es hg2] at h2
      injection h1 with h1'
      subst h1'
      exact hfresh e he1 ⟨g2, l2, h2, he2⟩
    · by_cases hg2 : g2 = gid
      · subst hg2
        rw [alLookup_insert_self] at h2
        rw [alLookup_insert_ne st.groupEntities g2 g1 es hg1] at h1
        injection h2 with h2'
        subst h2'
        exact hfresh e he2 ⟨g1, l1, h1, he1⟩
      · rw [alLookup_insert_ne st.groupEntities gid g1 es hg1] at h1
        rw [alLookup_insert_ne st.groupEntities gid g2 es hg2] at h2
        exact ih g1 l1 g2 l2 hne h1 h2 e he1 he2
  | player st pid f hR ih =>
    exact disjoint_of_groupEntities_eq st _ (playerDespawn_groupEntities st pid f) ih
  | group st g f hR ih =>
    exact groupDespawn_preserves_disjoint st g f ih
  | entity st eid tags f hR ih =>
    exact entityDespawn_preserves_disjoint st eid tags f ih

/-- C7 witness: the state reached by spawning group `a = [1, 2]` and then
group `b = [3]` (fresh handles each time) has disjoint live groups. -/
theorem reachable_groups_disjoint_witness :
    GroupsDisjoint (spawnRegister (spawnRegister emptyState "a" 7 [1, 2]) "b" 7 [3]) := by
  have hfresh1 : ∀ e ∈ [1, 2], ¬ inSomeGroup emptyState e := by
    intro e he hg
    obtain ⟨g, l, hl, hel⟩ := hg
    simp [emptyState, alLookup] at hl
  have hfresh2 : ∀ e ∈ [3], ¬ inSomeGroup (spawnRegister emptyState "a" 7 [1, 2]) e := by
    intro e he hg
    obtain ⟨g, l, hl, hel⟩ := hg
    simp at he
    subst he
    simp [spawnRegister, alInsert, alErase, emptyState, alLookup] at hl
    obtain ⟨_, hv⟩ := hl
    subst hv
    simp at hel
  exact reachable_groups_disjoint _
    (Reach.spawn _ "b" 7 [3] (Reach.spawn _ "a" 7 [1, 2] Reach.init hfresh1) hfresh2)

/-! ## C8 — tag codec round trip -/

theorem jsStartsWith_append (p s : String) : jsStartsWith (p ++ s) p = true := by
  simp [jsStartsWith, String.data_append, List.take_append_eq_append_take]

theorem jsDrop_gid_append (s : String) : jsDrop ("gid:" ++ s) 4 = s := by
  apply String.ext
  have h4 : ("gid:" : String).data.length = 4 := by decide
  simp [jsDrop, String.data_append, List.drop_append_eq_append_drop, ← h4]

theorem gid_marker_four : ("gid:" : String).data.length = 4 := by decide

theorem jsLength_gid_append (gid : String) :
    jsLength ("gid:" ++ gid) = 4 + gid.data.length := by
  show ("gid:" ++ gid).data.length = 4 + gid.data.length
  rw [String.data_append, List.length_append, gid_marker_four]

theorem safeGidTag_eq (gid : String) : safeGidTag gid = "gid:" ++ jsTake gid 16 := by
  by_cases h : jsLength ("gid:" ++ gid) > 20
  · have hlen : 16 ≤ gid.data.length := by
      rw [jsLength_gid_append] at h
      omega
    apply String.ext
    simp only [safeGidTag, h, if_pos]
    simp [jsTake, String.data_append, List.take_append_eq_append_take, gid_marker_four,
      List.take_of_length_le (show ("gid:" : String).data.length ≤ 20 by decide)]
  · have hle : gid.data.length ≤ 16 := by
      rw [jsLength_gid_append] at h
      omega
    apply String.ext
    simp only [safeGidTag, h, if_neg, if_false]
    simp [jsTake, String.data_append, List.take_of_length_le hle]

/-- C8: the group tag written by `tagSpawnGroup` always starts with
`gid:` and is at most 20 characters, with only the id portion truncated
(it equals `gid:` followed by the first 16 characters of the id); for
every groupId of length ≤ 16 the resolver recovers exactly the original
groupId from the written tag set; and the resolver returns none when no
tag starts with `gid:`. -/
theorem tag_codec_round_trip (gid : String) :
    (jsStartsWith (safeGidTag gid) "gid:" = true ∧
     jsLength (safeGidTag gid) ≤ 20 ∧
     safeGidTag gid = "gid:" ++ jsTake gid 16) ∧
    (jsLength gid ≤ 16 → groupIdFromEntityTags (tagsAfterTagging gid) = some gid) ∧
    (∀ tags : List String, (∀ t ∈ tags, jsStartsWith t "gid:" = false) →
       groupIdFromEntityTags tags = none) := by
  have heq := safeGidTag_eq gid
  have h4 : ("gid:" : String).data.length = 4 := by decide
  refine ⟨⟨?_, ?_, heq⟩, ?_, ?_⟩
  · rw [heq]
    exact jsStartsWith_append "gid:" (jsTake gid 16)
  · rw [heq]
    show ("gid:" ++ jsTake gid 16).data.length ≤ 20
    rw [String.data_append, List.length_append, gid_marker_four]
    have : (jsTake gid 16).data.length ≤ 16 := by
      simp [jsTake]
    omega
  · intro hle
    have htake : jsTake gid 16 = gid := by
      apply String.ext
      exact List.take_of_length_le hle
    have hbuggy : jsStartsWith buggyTag "gid:" = false := by decide
    have hstart : jsStartsWith (safeGidTag gid) "gid:" = true := by
      rw [heq]
      exact jsStartsWith_append "gid:" (jsTake gid 16)
    simp only [tagsAfterTagging, groupIdFromEntityTags, hbuggy, hstart, Bool.false_eq_true,
      if_false, if_true]
    rw [heq, htake, jsDrop_gid_append]
  · intro tags htags
    induction tags with
    | nil => rfl
    | cons t rest ih =>
      have ht := htags t (List.mem_cons_self t rest)
      simp only [groupIdFromEntityTags, ht, Bool.false_eq_true, if_false]
      exact ih (fun x hx => htags x (List.mem_cons_of_mem t hx))

/-- C8 witness: the id `abc` round-trips through the written tag set, and
a tag set with no `gid:` tag resolves to none. -/
theorem tag_codec_round_trip_witness :
    groupIdFromEntityTags (tagsAfterTagging "abc") = some "abc" ∧
    groupIdFromEntityTags [buggyTag] = none :=
  ⟨(tag_codec_round_trip "abc").2.1 (by decide),
   (tag_codec_round_trip "abc").2.2 [buggyTag] (by decide)⟩

/-! ## C10 — spawns append to the player's tracked list -/

/-- A sequence of successful spawns by one player with no intervening
despawn: each element carries the generated groupId and the handles the
creation call returned. -/
def spawnSeq (st : SpawnState) (pid : Nat) (spawns : List (String × List Nat)) : SpawnState :=
  spawns.foldl (fun s gp => spawnRegister s gp.1 pid gp.2) st

theorem spawnSeq_lookup (pid : Nat) :
    ∀ (spawns : List (String × List Nat)) (st : SpawnState) (l : List (Option Nat)),
      alLookup st.spawnedEntities pid = some l →
      alLookup (spawnSeq st pid spawns).spawnedEntities pid
        = some (l ++ ((spawns.map Prod.snd).flatten).map some) := by
  intro spawns
  induction spawns with
  | nil =>
    intro st l h
    simpa [spawnSeq] using h
  | cons gp rest ih =>
    intro st l h
    have hstep : alLookup (spawnRegister st gp.1 pid gp.2).spawnedEntities pid
        = some (l ++ gp.2.map some) := by
      simp [spawnRegister, alLookup_insert_self, h]
    have hrec := ih (spawnRegister st gp.1 pid gp.2) (l ++ gp.2.map some) hstep
    simpa [spawnSeq, List.map_append, List.append_assoc] using hrec

/-- C10: a successful spawn appends the new group's handles to the
requesting player's existing tracked list rather than replacing it, so
after any non-empty sequence of successful spawns by one player (starting
with no tracked entities and with no intervening despawn) the tracked
list is exactly the concatenation of all spawned handle lists, and a
single player-scoped take returns all of them. -/
theorem spawn_appends_player_tracking (st : SpawnState) (pid : Nat)
    (spawns : List (String × List Nat))
    (h0 : alLookup st.spawnedEntities pid = none) (hne : spawns ≠ []) :
    (∀ (st' : SpawnState) (gid : String) (es : List Nat),
       alLookup (spawnRegister st' gid pid es).spawnedEntities pid
         = some (((alLookup st'.spawnedEntities pid).getD []) ++ es.map some)) ∧
    alLookup (spawnSeq st pid spawns).spawnedEntities pid
      = some (((spawns.map Prod.snd).flatten).map some) ∧
    (takePlayerEntities (spawnSeq st pid spawns) pid).2
      = ((spawns.map Prod.snd).flatten).map some := by
  have happend : ∀ (st' : SpawnState) (gid : String) (es : List Nat),
      alLookup (spawnRegister st' gid pid es).spawnedEntities pid
        = some (((alLookup st'.spawnedEntities pid).getD []) ++ es.map some) := by
    intro st' gid es
    simp [spawnRegister, alLookup_insert_self]
  have hmain : alLookup (spawnSeq st pid spawns).spawnedEntities pid
      = some (((spawns.map Prod.snd).flatten).map some) := by
    cases spawns with
    | nil => exact absurd rfl hne
    | cons gp rest =>
      have hstep : alLookup (spawnRegister st gp.1 pid gp.2).spawnedEntities pid
          = some (gp.2.map some) := by
        simp [spawnRegister, alLookup_insert_self, h0]
      have hrec := spawnSeq_lookup pid rest (spawnRegister st gp.1 pid gp.2)
        (gp.2.map some) hstep
      simpa [spawnSeq, List.map_append, List.append_assoc] using hrec
  refine ⟨happend, hmain, ?_⟩
  simp [takePlayerEntities, hmain]

/-- C10 witness: player 7 spawns group `a = [1, 2]` then group
`b = [3]`; the tracked list is `[1, 2, 3]` and one take returns it all. -/
theorem spawn_appends_player_tracking_witness :
    alLookup (spawnSeq emptyState 7 [("a", [1, 2]), ("b", [3])]).spawnedEntities 7
      = some ((([("a", [1, 2]), ("b", [3])].map Prod.snd).flatten).map some) ∧
    (takePlayerEntities (spawnSeq emptyState 7 [("a", [1, 2]), ("b", [3])]) 7).2
      = (([("a", [1, 2]), ("b", [3])].map Prod.snd).flatten).map some :=
  ⟨(spawn_appends_player_tracking emptyState 7 [("a", [1, 2]), ("b", [3])]
      (by decide) (by decide)).2.1,
   (spawn_appends_player_tracking emptyState 7 [("a", [1, 2]), ("b", [3])]
      (by decide) (by decide)).2.2⟩

/-! ## Closed instances for the C1 and C2 statements -/

/-- C1 witness: player 7 with two tracked handles; after the first take
the second request's take is empty, its result is 0/0, and it issues no
removal call. -/
theorem player_despawn_race_safe_witness :
    (takePlayerEntities (takePlayerEntities ⟨[(7, [some 1, some 2])], [], []⟩ 7).1 7).2 = [] ∧
    (playerDespawn (takePlayerEntities ⟨[(7, [some 1, some 2])], [], []⟩ 7).1 7
        (fun _ => false)).2 = ⟨7, 0, 0⟩ ∧
    removalCalls
        (takePlayerEntities (takePlayerEntities ⟨[(7, [some 1, some 2])], [], []⟩ 7).1 7).2
      = [] :=
  ⟨(player_despawn_race_safe ⟨[(7, [some 1, some 2])], [], []⟩ 7 (fun _ => false)).1,
   (player_despawn_race_safe ⟨[(7, [some 1, some 2])], [], []⟩ 7 (fun _ => false)).2.1,
   (player_despawn_race_safe ⟨[(7, [some 1, some 2])], [], []⟩ 7 (fun _ => false)).2.2.1⟩

/-- C2 witness: a second despawn of the registered group `g = [1]`
reports 0/0 with an empty take, and a despawn of the never-registered
group `g` in a registry holding only `h = [2]` reports 0/0 and leaves the
state unchanged. -/
theorem group_despawn_idempotent_witness :
    (groupDespawn (groupDespawn ⟨[], [("g", [1])], [(1, "g")]⟩ "g" (fun _ => false)).1 "g"
        (fun _ => false)).2 = ⟨"group:" ++ "g", 0, 0⟩ ∧
    groupTaken (groupDespawn ⟨[], [("g", [1])], [(1, "g")]⟩ "g" (fun _ => false)).1 "g" = [] ∧
    ((groupDespawn ⟨[], [("h", [2])], []⟩ "g" (fun _ => false)).2 = ⟨"group:" ++ "g", 0, 0⟩ ∧
     (groupDespawn ⟨[], [("h", [2])], []⟩ "g" (fun _ => false)).1 = ⟨[], [("h", [2])], []⟩) :=
  ⟨(group_despawn_idempotent ⟨[], [("g", [1])], [(1, "g")]⟩ "g" (fun _ => false)
      (fun _ => false)).1,
   (group_despawn_idempotent ⟨[], [("g", [1])], [(1, "g")]⟩ "g" (fun _ => false)
      (fun _ => false)).2.1,
   (group_despawn_idempotent ⟨[], [("h", [2])], []⟩ "g" (fun _ => false)
      (fun _ => false)).2.2 (by decide)⟩
